import Mathlib

/-!
Verification development for the BlueMouse repository.

Part 1 embeds `socratic_questions_library.py` (present in the repository):
the question library `QUESTION_LIBRARY` and the helper functions
`get_questions_by_category`, `get_random_questions`,
`get_questions_for_module` and `evaluate_question_quality`.

Part 2 models the 17-layer validation pipeline and the spec-tree
dependency resolver; their implementation files are not part of the
source snapshot (only tests and callers are), so those definitions are
modelled from the specification document, as marked in doc comments.
-/

namespace BlueMouse

/-- One entry of the socratic question library: a Python dict that may carry
the keys `text`, `category`, `options`, `risk_analysis` (itself a dict, kept
as its key-value pair list) and `trap`; a missing key is `none`. -/
structure QuestionDict where
  text : Option String
  category : Option String
  options : Option (List String)
  risk_analysis : Option (List (String × String))
  trap : Option String
deriving DecidableEq

/-- Build a library question that carries every key, as every literal entry of
`QUESTION_LIBRARY` in the source does. -/
def mkQ (t c : String) (opts : List String) (ra : List (String × String))
    (tr : String) : QuestionDict :=
  ⟨some t, some c, some opts, some ra, some tr⟩

/-- The `"payment"` entry of `QUESTION_LIBRARY`. -/
def paymentQuestions : List QuestionDict :=
  [ mkQ "如果付款 API 在扣款後超時(30秒無響應),你要如何確認付款是否成功?"
      "error_handling"
      ["A. 立即重試付款請求", "B. 調用查詢付款狀態 API", "C. 標記為待確認,人工處理"]
      [("0", "⚠️ 重複扣款風險"), ("1", "✅ 標準做法"), ("2", "⚠️ 用戶體驗差")]
      "測試用戶是否理解冪等性和分布式事務",
    mkQ "用戶付款成功但訂單建立失敗,你要如何處理?"
      "recovery"
      ["A. 自動退款給用戶", "B. 重試建立訂單 (最多3次)", "C. 保留付款記錄,允許用戶重新下單"]
      [("0", "⚠️ 損失交易機會"), ("1", "✅ 自動恢復"), ("2", "⚠️ 客服成本高")]
      "測試用戶對補償事務的理解",
    mkQ "如果用戶在付款過程中按下 '上一頁'，系統會發生什麼？"
      "state_management"
      ["A. 重複建立訂單", "B. 鎖定訂單，提示 '付款中'", "C. 無反應"]
      [("0", "⚠️ 髒數據風險"), ("1", "✅ 狀態機保護"), ("2", "⚠️ 用戶困惑")]
      "測試前端狀態鎖定意識" ]

/-- The `"inventory"` entry of `QUESTION_LIBRARY`. -/
def inventoryQuestions : List QuestionDict :=
  [ mkQ "兩個用戶同時購買最後一件商品,你要如何處理?"
      "concurrency"
      ["A. 先到先得 (DB Lock)", "B. 兩者都成功,超賣後補貨", "C. 使用 Redis 原子操作"]
      [("0", "✅ 安全但慢"), ("1", "⚠️ 商業風險"), ("2", "✅ 高性能推薦")]
      "測試並發控制能力",
    mkQ "閃購活動 (Flash Sale) 流量瞬間暴增 100倍，數據庫撐不住怎麼辦？"
      "performance"
      ["A. 升級數據庫規格", "B. 引入 Redis 預扣庫存 + 消息隊列", "C. 限流 (Rate Limit)"]
      [("0", "⚠️ 成本極高且無效"), ("1", "✅ 標準架構"), ("2", "✅ 保護系統但犧牲體驗")]
      "測試高並發架構設計" ]

/-- The `"authentication"` entry of `QUESTION_LIBRARY`. -/
def authenticationQuestions : List QuestionDict :=
  [ mkQ "用戶連續登入失敗 5 次,你要如何處理?"
      "security"
      ["A. 鎖定帳號 30 分鐘", "B. 要求圖形驗證碼", "C. 不處理"]
      [("0", "✅ 標準防禦"), ("1", "✅ 平衡體驗"), ("2", "⚠️ 暴力破解風險")]
      "測試暴力破解防禦意識",
    mkQ "JWT Token 被盜用了，服務端能強制讓它失效嗎？"
      "security"
      ["A. 不能，JWT 是無狀態的", "B. 可以，使用 Redis 黑名單機制", "C. 可以，刪除用戶"]
      [("0", "⚠️ 安全漏洞"), ("1", "✅ 標準解決方案"), ("2", "⚠️ 過度反應")]
      "測試 JWT 機制理解",
    mkQ "如果資料庫被 SQL Injection 注入，所有用戶密碼洩漏，後果是什麼？"
      "security"
      ["A. 密碼是明文，全部完蛋", "B. 密碼有加鹽 Hash，暫時安全但需重置", "C. 只有管理員受影響"]
      [("0", "💀 災難性後果 (未加密)"), ("1", "✅ 縱深防禦生效"), ("2", "⚠️ 錯誤認知")]
      "測試密碼存儲安全意識" ]

/-- The `"data_consistency"` entry of `QUESTION_LIBRARY`. -/
def dataConsistencyQuestions : List QuestionDict :=
  [ mkQ "主資料庫寫入成功但快取更新失敗,如何保證一致性?"
      "consistency"
      ["A. 回滾資料庫", "B. 設定快取過期時間 (TTL)", "C. 無限重試"]
      [("0", "⚠️ 影響性能"), ("1", "✅ 最終一致性"), ("2", "⚠️ 可能死鎖")]
      "測試 CAP 定理與最終一致性",
    mkQ "微服務 A 調用 微服務 B 失敗，如何保證數據不丟失？"
      "reliability"
      ["A. 記錄 Log", "B. 使用消息隊列 (Kafka/RabbitMQ) 重試", "C. 放棄操作"]
      [("0", "⚠️ 難以自動恢復"), ("1", "✅ 可靠性設計"), ("2", "⚠️ 數據丟失")]
      "測試分布式系統可靠性" ]

/-- The `"api_integration"` entry of `QUESTION_LIBRARY`. -/
def apiIntegrationQuestions : List QuestionDict :=
  [ mkQ "第三方 API 響應時間超過 5 秒,你要如何處理?"
      "reliability"
      ["A. 等待直到超時", "B. Circuit Breaker (熔斷機制)", "C. 返回錯誤"]
      [("0", "⚠️ 雪崩效應風險"), ("1", "✅ 保護系統"), ("2", "⚠️ 體驗差")]
      "測試服務治理能力",
    mkQ "如何防止惡意用戶重複調用你的 API (Replay Attack)？"
      "security"
      ["A. 檢查 User-Agent", "B. 使用 Nonce + Timestamp 簽名", "C. 限制 IP"]
      [("0", "⚠️ 易被偽造"), ("1", "✅ 標準防禦"), ("2", "⚠️ 誤殺無辜")]
      "測試 API 安全設計" ]

/-- The `"privacy"` entry of `QUESTION_LIBRARY`. -/
def privacyQuestions : List QuestionDict :=
  [ mkQ "日誌 (Log) 中包含用戶的信用卡號，這可以嗎？"
      "compliance"
      ["A. 可以，方便除錯", "B. 不行，必須脫敏 (Masking)", "C. 只有內部人員能看就行"]
      [("0", "💀 嚴重違規 (PCI-DSS)"), ("1", "✅ 合規做法"), ("2", "⚠️ 內部威脅風險")]
      "測試隱私合規意識",
    mkQ "歐盟用戶要求刪除所有數據 (GDPR)，但備份裡還有，怎麼辦？"
      "compliance"
      ["A. 不用管備份", "B. 標記為已刪除，恢復時過濾", "C. 銷毀所有備份"]
      [("0", "⚠️ 法律風險"), ("1", "✅ 可行方案"), ("2", "⚠️ 不切實際")]
      "測試 GDPR 合規處理" ]

/-- The `"chat"` entry of `QUESTION_LIBRARY`. -/
def chatQuestions : List QuestionDict :=
  [ mkQ "如果用戶離線時收到100條訊息，重新上線後如何同步？"
      "performance"
      ["A. 一次性推送所有訊息", "B. 分批推送 (Pagination)", "C. 只顯示最後一條"]
      [("0", "⚠️ 卡頓/流量爆炸"), ("1", "✅ 標準做法"), ("2", "⚠️ 信息丟失")]
      "測試即時通訊同步機制",
    mkQ "訊息發送後，對方未讀，發送方刪除了訊息，對方還能看到嗎？"
      "consistency"
      ["A. 能看到 (雙向刪除需特殊處理)", "B. 不能看到 (物理刪除)", "C. 看運氣"]
      [("0", "✅ 隱私保護挑戰"), ("1", "⚠️ 數據找回困難"), ("2", "⚠️ 不確定性")]
      "測試消息撤回/刪除邏輯" ]

/-- The `"booking"` entry of `QUESTION_LIBRARY`. -/
def bookingQuestions : List QuestionDict :=
  [ mkQ "兩個用戶同時預約同一時段，系統如何避免衝突？"
      "concurrency"
      ["A. 先到先得 (Database Constraint)", "B. 候補機制", "C. 人工協調"]
      [("0", "✅ 強一致性"), ("1", "⚠️ 用戶體驗"), ("2", "⚠️ 運營成本")]
      "測試資源爭用處理" ]

/-- The `"todo"` entry of `QUESTION_LIBRARY`. -/
def todoQuestions : List QuestionDict :=
  [ mkQ "刪除父任務時，子任務應該如何處理？"
      "data_integrity"
      ["A. 級聯刪除 (Cascade Delete)", "B. 子任務變為獨立任務 (Orphan)", "C. 禁止刪除"]
      [("0", "✅ 數據清潔"), ("1", "⚠️ 數據碎片"), ("2", "⚠️ 僵化")]
      "測試數據關聯完整性" ]

/-- The `"frontend"` entry of `QUESTION_LIBRARY`. -/
def frontendQuestions : List QuestionDict :=
  [ mkQ "用戶在評論區輸入了 `<script>alert(1)</script>`，會發生什麼？"
      "security"
      ["A. 彈出視窗 (XSS 攻擊成功)", "B. 被轉義顯示為純文本", "C.瀏覽器崩潰"]
      [("0", "💀 嚴重漏洞 (XSS)"), ("1", "✅ 安全編碼"), ("2", "⚠️ 錯誤認知")]
      "測試 XSS 防禦意識",
    mkQ "API Token 應該存在哪裡最安全？"
      "security"
      ["A. LocalStorage", "B. HttpOnly Cookie", "C. JS 變量"]
      [("0", "⚠️ 易受 XSS 攻擊"), ("1", "✅ 防止 XSS 竊取"), ("2", "⚠️ page refresh 後丟失")]
      "測試前端存儲安全" ]

/-- `QUESTION_LIBRARY` from `socratic_questions_library.py`: an insertion-ordered
dict from category name to question list, kept as an association list. -/
def QUESTION_LIBRARY : List (String × List QuestionDict) :=
  [ ("payment", paymentQuestions),
    ("inventory", inventoryQuestions),
    ("authentication", authenticationQuestions),
    ("data_consistency", dataConsistencyQuestions),
    ("api_integration", apiIntegrationQuestions),
    ("privacy", privacyQuestions),
    ("chat", chatQuestions),
    ("booking", bookingQuestions),
    ("todo", todoQuestions),
    ("frontend", frontendQuestions) ]

/-- `get_questions_by_category`: `QUESTION_LIBRARY.get(category, [])`. -/
def get_questions_by_category (category : String) : List QuestionDict :=
  match QUESTION_LIBRARY.find? (fun p => p.1 == category) with
  | some p => p.2
  | none => []

/-- A model of `random.sample`: any function returning, for a population `l`
and a requested size `n ≤ l.length`, a selection of exactly `n` of its
elements.  The length law is the only fact about `random.sample` the
library functions rely on. -/
structure Sampler where
  sample : List QuestionDict → Nat → List QuestionDict
  length_sample : ∀ l n, n ≤ l.length → (sample l n).length = n
  mem_sample : ∀ l n x, x ∈ sample l n → x ∈ l

/-- `get_random_questions(count)`: flatten the library's values and draw
`random.sample(all_questions, min(count, len(all_questions)))`. -/
def get_random_questions (s : Sampler) (count : Nat) : List QuestionDict :=
  let all_questions := QUESTION_LIBRARY.flatMap (fun p => p.2)
  s.sample all_questions (min count all_questions.length)

/-- Character-list prefix test used by the substring test below. -/
def chPrefix : List Char → List Char → Bool
  | [], _ => true
  | _ :: _, [] => false
  | a :: as, b :: bs => a == b && chPrefix as bs

/-- Python's `needle in hay` substring membership, on character lists. -/
def chInfix (needle : List Char) : List Char → Bool
  | [] => needle.isEmpty
  | c :: cs => chPrefix needle (c :: cs) || chInfix needle cs

/-- Python's `str.lower()`: lower-case every character. -/
def strToLower (s : String) : String :=
  ⟨s.data.map Char.toLower⟩

/-- Python's `kw in text` substring test, over the keyword list of one
`any(...)` condition in `get_questions_for_module`. -/
def kwAny (kws : List String) (text : String) : Bool :=
  kws.any (fun kw => chInfix kw.toList text.toList)

/-- The five keyword tables of `get_questions_for_module`, with the category
each one selects. -/
def keywordTable : List (List String × String) :=
  [ (["付款", "支付", "payment", "交易"], "payment"),
    (["庫存", "inventory", "商品", "購物"], "inventory"),
    (["登入", "認證", "auth", "用戶", "user"], "authentication"),
    (["數據", "data", "快取", "cache"], "data_consistency"),
    (["api", "接口", "第三方", "integration"], "api_integration") ]

/-- `get_questions_for_module(module_name, module_description)`: lower-case the
concatenated text, extend the selection with each keyword-matched category,
fall back to `get_random_questions(5)` when nothing matched, and return at
most the first 5 questions. -/
def get_questions_for_module (s : Sampler)
    (module_name module_description : String) : List QuestionDict :=
  let text := strToLower (module_name ++ " " ++ module_description)
  let selected := keywordTable.flatMap
    (fun kc => if kwAny kc.1 text then get_questions_by_category kc.2 else [])
  let selected := if selected.isEmpty then get_random_questions s 5 else selected
  selected.take 5

/-- Truth of the fallback condition of `get_questions_for_module`: none of the
five keyword tables matches the lower-cased module text. -/
def no_category_match (module_name module_description : String) : Bool :=
  let text := strToLower (module_name ++ " " ++ module_description)
  keywordTable.all (fun kc => !kwAny kc.1 text)

/-- Result dict of `evaluate_question_quality`. -/
structure QualityResult where
  score : Int
  feedback : List String
  quality : String
deriving DecidableEq

/-- The required-field score of `evaluate_question_quality`: `+25` for each of
`text`, `category`, `options`, `risk_analysis` present. -/
def requiredFieldScore (question : QuestionDict) : Int :=
  (if question.text.isSome then 25 else 0)
    + (if question.category.isSome then 25 else 0)
    + (if question.options.isSome then 25 else 0)
    + (if question.risk_analysis.isSome then 25 else 0)

/-- The option-count condition of `evaluate_question_quality`:
`'options' in question and len(question['options']) >= 3`. -/
def optionsSufficient (question : QuestionDict) : Bool :=
  match question.options with
  | some opts => 3 ≤ opts.length
  | none => false

/-- The risk-analysis completeness condition: every key of `['0','1','2']`
appears in `question['risk_analysis']`. -/
def riskComplete (ra : List (String × String)) : Bool :=
  ["0", "1", "2"].all (fun k => ra.any (fun kv => kv.1 == k))

/-- `evaluate_question_quality(question)`: field score, `-10` when the options
are missing or fewer than 3, `-10` when a present risk analysis is incomplete;
the returned score is `max(0, score)` and the quality label is judged on the
unclamped score. -/
def evaluate_question_quality (question : QuestionDict) : QualityResult :=
  let score := requiredFieldScore question
  let fb :=
    (if question.text.isSome then [] else ["缺少必要字段: text"])
      ++ (if question.category.isSome then [] else ["缺少必要字段: category"])
      ++ (if question.options.isSome then [] else ["缺少必要字段: options"])
      ++ (if question.risk_analysis.isSome then [] else ["缺少必要字段: risk_analysis"])
  let score := if optionsSufficient question then score else score - 10
  let fb := fb ++ (if optionsSufficient question then ["✅ 選項數量充足"]
                   else ["⚠️ 選項數量不足 (建議 3-4 個)"])
  let score :=
    match question.risk_analysis with
    | some ra => if riskComplete ra then score else score - 10
    | none => score
  let fb :=
    match question.risk_analysis with
    | some ra => fb ++ (if riskComplete ra then ["✅ 風險分析完整"] else ["⚠️ 風險分析不完整"])
    | none => fb
  { score := max 0 score,
    feedback := fb,
    quality := if 90 ≤ score then "優秀" else if 70 ≤ score then "良好" else "需改進" }

/-!
Part 2 — the validation pipeline and the spec-tree resolver.

The implementation files (`validation_17_layers.py`, `server.py`) are not in
the source snapshot; only their tests and callers are.  Everything below is
therefore modelled from the specification document, over the output domain of
the Structural Adapter (the adapter itself is source-syntax specific and out
of reach of a shallow embedding of absent code; source text is abstracted to
its parse outcome, plus the raw lines that the line-based layers consume).
-/

/-- Modelled from the spec: `SyntaxErrorKind(line, column, message)`, the typed
parse-failure result of the Structural Adapter (§4.1). -/
structure SyntaxErrorKind where
  line : Nat
  column : Nat
  message : String
deriving DecidableEq

/-- Modelled from the spec: one function parameter with its name and whether it
carries a type annotation (§4.1, §4.2 Tier B). -/
structure Param where
  name : String
  annotated : Bool
deriving DecidableEq

/-- Modelled from the spec: one function definition as exposed by the
Structural Adapter — name, parameters, return-annotation presence, attached
documentation block and whether any return statement occurs in the body at any
nesting depth (§4.1, §4.2 Tier B). -/
structure FunctionDef where
  name : String
  params : List Param
  returnAnnotated : Bool
  docstring : Option String
  hasReturn : Bool
deriving DecidableEq

/-- Modelled from the spec: one import statement with its top-level module
name and relative-import depth, 0 for absolute (§4.1). -/
structure ImportStm where
  moduleName : String
  relativeDepth : Nat
deriving DecidableEq

/-- Modelled from the spec: one control-construct node of the parsed unit's
structural tree — a for loop, a while loop, a conditional or any other
statement owning a nested block (§4.1, §4.2 L14/L17). -/
inductive CNode where
  | forLoop (children : List CNode)
  | whileLoop (children : List CNode)
  | conditional (children : List CNode)
  | plain (children : List CNode)

/-- Modelled from the spec: one statement of an exception-handler body, only
distinguished by whether it is a no-op (§4.2 L15). -/
inductive HStmt where
  | noOp
  | effective
deriving DecidableEq

/-- Modelled from the spec: one try/exception construct with the bodies of its
exception handlers (§4.1, §4.2 L15). -/
structure TryBlock where
  handlers : List (List HStmt)
deriving DecidableEq

/-- Modelled from the spec: the queryable structural representation produced
by the Structural Adapter for a parseable unit (§4.1). -/
structure ParsedUnit where
  functions : List FunctionDef
  classes : List String
  imports : List ImportStm
  constructs : List CNode
  tryBlocks : List TryBlock
  calls : List String

/-- Modelled from the spec: the optional expected signature bound to a
CodeUnit — expected parameter names and output type (§3, §6). -/
structure ExpectedSig where
  inputs : List String
  output : String
deriving DecidableEq

/-- Modelled from the spec: a CodeUnit — raw source lines, the Structural
Adapter's outcome on the source, the optional expected signature and the
optional spec-tree node binding (§3, §6). -/
structure CodeUnit where
  lines : List String
  parse : Except SyntaxErrorKind ParsedUnit
  expectedSignature : Option ExpectedSig
  nodeId : Option String

/-- Modelled from the spec: node kinds of the specification tree (§3). -/
inductive NodeKind where
  | MODULE
  | LEAF
deriving DecidableEq

/-- Modelled from the spec: a SpecNode — identifier, display name, kind,
declared dependency set (meaningful on MODULE nodes) and owned children
(§3). -/
inductive SpecNode where
  | mk (ident : String) (displayName : String) (kind : NodeKind)
       (dependencies : List String) (children : List SpecNode)

/-- Identifier of a spec node. -/
def SpecNode.ident : SpecNode → String
  | .mk i _ _ _ _ => i

/-- Kind of a spec node. -/
def SpecNode.kind : SpecNode → NodeKind
  | .mk _ _ k _ _ => k

/-- Declared dependency set of a spec node. -/
def SpecNode.dependencies : SpecNode → List String
  | .mk _ _ _ d _ => d

/-- Children of a spec node. -/
def SpecNode.children : SpecNode → List SpecNode
  | .mk _ _ _ _ cs => cs

/-- The dependency grant a node contributes to its descendants: MODULE nodes
grant their declared set, LEAF nodes grant nothing (§3). -/
def SpecNode.grant (n : SpecNode) : List String :=
  if n.kind = .MODULE then n.dependencies else []

mutual

/-- Modelled from the spec: the Spec Tree Resolver's walk (§4.3).  Descending
from the root, it accumulates the dependency grants of the MODULE nodes it
passes through; reaching the target identifier it returns the accumulated
allow-list (the target's own declarations are not part of it — ancestors run
from root to the target's parent).  `none` models `NodeNotFound`. -/
def allowWalk (target : String) (acc : List String) : SpecNode → Option (List String)
  | .mk i nm k deps cs =>
    if i = target then some acc
    else allowWalkList target (acc ++ SpecNode.grant (.mk i nm k deps cs)) cs

/-- The resolver's walk over a sibling list: first found wins. -/
def allowWalkList (target : String) (acc : List String) : List SpecNode → Option (List String)
  | [] => none
  | c :: rest =>
    match allowWalk target acc c with
    | some r => some r
    | none => allowWalkList target acc rest

end

/-- Modelled from the spec: `SpecTree.effectiveAllowList(nodeId)` (§4.3); a
spec tree is its single root node. -/
def effectiveAllowList (root : SpecNode) (target : String) : Option (List String) :=
  allowWalk target [] root

mutual

/-- The root-to-target path of a node identifier in the tree, `none` when the
identifier is absent.  This is the declarative side of the §3 invariant, used
to state what the resolver computes. -/
def findPath (target : String) : SpecNode → Option (List SpecNode)
  | .mk i nm k deps cs =>
    if i = target then some [.mk i nm k deps cs]
    else
      match findPathList target cs with
      | some p => some (.mk i nm k deps cs :: p)
      | none => none

/-- Path search over a sibling list: first found wins. -/
def findPathList (target : String) : List SpecNode → Option (List SpecNode)
  | [] => none
  | c :: rest =>
    match findPath target c with
    | some p => some p
    | none => findPathList target rest

end

/-- The union (as an ordered concatenation) of the dependency sets declared by
the MODULE nodes of a path (§3: "the union of the dependency sets declared by
every MODULE ancestor on the path from root to that leaf"). -/
def moduleGrants (p : List SpecNode) : List String :=
  p.flatMap SpecNode.grant

/-- Modelled from the spec: a CheckResult — layer number, layer name, pass
flag, message and the optional structured detail kept as an issue list
(§3). -/
structure CheckResult where
  layer : Nat
  layerName : String
  passed : Bool
  message : String
  detail : List String
deriving DecidableEq

/-- Modelled from the spec: the serializable ValidationReport record (§3,
§6). -/
structure ValidationReport where
  layers : List CheckResult
  passed : Bool
  quality_score : Nat
  total_layers : Nat
  passed_layers : Nat
  suggestions : List String
deriving DecidableEq

/-- Python's built-in `round` on the exact ratio `num / den` (nearest integer,
ties to even), used for `round(100 × passed_count / total_count)`. -/
def pyRound (num den : Nat) : Nat :=
  if den = 0 then 0
  else
    let q := num / den
    let r := num % den
    if 2 * r < den then q
    else if den < 2 * r then q + 1
    else if q % 2 = 0 then q else q + 1

/-- The failed CheckResult a parsed-unit-consuming layer returns when the
Structural Adapter reported a parse failure: the fault is converted into a
failed result instead of an exception (§7). -/
def noParsedUnit (n : Nat) (nm : String) : CheckResult :=
  ⟨n, nm, false, "no parsed unit available", []⟩

/-- The message L1 carries on parse failure: the underlying parser's
line/column/message (§7). -/
def syntaxMessage (e : SyntaxErrorKind) : String :=
  "Syntax error at line " ++ toString e.line ++ ", column "
    ++ toString e.column ++ ": " ++ e.message

/-- Modelled from the spec: L1 — the unit parses (§4.2 Tier A). -/
def layer1 (u : CodeUnit) : CheckResult :=
  match u.parse with
  | .ok _ => ⟨1, "Syntax", true, "parse OK", []⟩
  | .error e => ⟨1, "Syntax", false, syntaxMessage e, []⟩

/-- Modelled from the spec: L2 — at least one function or class definition
exists (§4.2 Tier A). -/
def layer2 (u : CodeUnit) : CheckResult :=
  match u.parse with
  | .ok pu =>
    ⟨2, "Has definition", !(pu.functions.isEmpty && pu.classes.isEmpty),
      "definition count: " ++ toString (pu.functions.length + pu.classes.length), []⟩
  | .error _ => noParsedUnit 2 "Has definition"

/-- A source line satisfies L3: no horizontal tab, and a non-blank line's
leading-whitespace width is a multiple of 4 (§4.2 Tier A). -/
def lineWellFormatted (s : String) : Bool :=
  let cs := s.toList
  !(cs.contains '\t')
    && (cs.all (fun c => c.isWhitespace)
        || (cs.takeWhile (fun c => c == ' ')).length % 4 == 0)

/-- Modelled from the spec: L3 — formatting over the raw lines, reporting up
to 3 violating lines (§4.2 Tier A). -/
def layer3 (u : CodeUnit) : CheckResult :=
  let bad := u.lines.filter (fun l => !(lineWellFormatted l))
  ⟨3, "Formatting", bad.isEmpty,
    "formatting violations: " ++ toString bad.length, bad.take 3⟩

/-- `^[a-z_][a-z0-9_]*$` (§4.2 Tier A, L4). -/
def isSnakeName (s : String) : Bool :=
  match s.toList with
  | [] => false
  | c :: cs =>
    (c.isLower || c == '_')
      && cs.all (fun d => d.isLower || d.isDigit || d == '_')

/-- `^[A-Z][A-Za-z0-9]*$` (§4.2 Tier A, L4). -/
def isPascalName (s : String) : Bool :=
  match s.toList with
  | [] => false
  | c :: cs => c.isUpper && cs.all (fun d => d.isAlpha || d.isDigit)

/-- Modelled from the spec: L4 — naming conventions, reporting up to 3
violations (§4.2 Tier A). -/
def layer4 (u : CodeUnit) : CheckResult :=
  match u.parse with
  | .ok pu =>
    let bad := (pu.functions.map FunctionDef.name).filter (fun nm => !(isSnakeName nm))
      ++ pu.classes.filter (fun nm => !(isPascalName nm))
    ⟨4, "Naming", bad.isEmpty, "naming violations: " ++ toString bad.length, bad.take 3⟩
  | .error _ => noParsedUnit 4 "Naming"

/-- Set equality of two name lists (order irrelevant), for L5 (§4.2
Tier B). -/
def nameSetEq (a b : List String) : Bool :=
  a.all (fun x => b.contains x) && b.all (fun x => a.contains x)

/-- Modelled from the spec: L5 — parameters of the first function against the
expected parameter-name set when one is supplied (§4.2 Tier B). -/
def layer5 (u : CodeUnit) : CheckResult :=
  match u.parse with
  | .ok pu =>
    match pu.functions.head? with
    | some fn =>
      match u.expectedSignature with
      | some sig =>
        ⟨5, "Parameters", nameSetEq (fn.params.map Param.name) sig.inputs,
          "expected parameter set check", []⟩
      | none =>
        ⟨5, "Parameters", true, "parameter count: " ++ toString fn.params.length, []⟩
    | none => ⟨5, "Parameters", false, "no definition found", []⟩
  | .error _ => noParsedUnit 5 "Parameters"

/-- Modelled from the spec: L6 — the first function contains a return
statement at any nesting depth (§4.2 Tier B). -/
def layer6 (u : CodeUnit) : CheckResult :=
  match u.parse with
  | .ok pu =>
    match pu.functions.head? with
    | some fn => ⟨6, "Return", fn.hasReturn, "return statement check", []⟩
    | none => ⟨6, "Return", false, "no definition found", []⟩
  | .error _ => noParsedUnit 6 "Return"

/-- The L7 pass condition on the first function: annotation coverage ≥ 0.8
(coverage is 1.0 for a zero-parameter function with a return annotation, 0.0
for one without) AND a return annotation is present (§4.2 Tier B).  With `n`
parameters of which `a` annotated, `a / n ≥ 0.8 ↔ 5 * a ≥ 4 * n`. -/
def annotationCoverageOk (fn : FunctionDef) : Bool :=
  let n := fn.params.length
  let a := (fn.params.filter Param.annotated).length
  if n = 0 then fn.returnAnnotated
  else 4 * n ≤ 5 * a && fn.returnAnnotated

/-- Modelled from the spec: L7 — annotation coverage of the first function
(§4.2 Tier B). -/
def layer7 (u : CodeUnit) : CheckResult :=
  match u.parse with
  | .ok pu =>
    match pu.functions.head? with
    | some fn => ⟨7, "Annotation coverage", annotationCoverageOk fn, "coverage check", []⟩
    | none => ⟨7, "Annotation coverage", false, "no definition found", []⟩
  | .error _ => noParsedUnit 7 "Annotation coverage"

/-- Modelled from the spec: L8 — the first function has an attached
documentation block longer than 10 characters (§4.2 Tier B). -/
def layer8 (u : CodeUnit) : CheckResult :=
  match u.parse with
  | .ok pu =>
    match pu.functions.head? with
    | some fn =>
      let ok := match fn.docstring with
        | some d => 10 < d.length
        | none => false
      ⟨8, "Documentation", ok, "docstring check", []⟩
    | none => ⟨8, "Documentation", false, "no definition found", []⟩
  | .error _ => noParsedUnit 8 "Documentation"

/-- Modelled from the spec: the fixed standard-library name set L10 classifies
against (§4.2 Tier C; the concrete table is configuration, §9). -/
def STDLIB_NAMES : List String :=
  ["os", "sys", "math", "json", "time", "random", "datetime", "collections",
   "itertools", "functools", "re", "typing", "asyncio", "pathlib"]

/-- Modelled from the spec: the fixed reporting-only third-party name set L11
classifies against (§4.2 Tier C). -/
def THIRD_PARTY_NAMES : List String :=
  ["requests", "numpy", "pandas", "flask", "django", "pydantic", "fastapi"]

/-- Modelled from the spec: L9 — always passes, reports the import count
(§4.2 Tier C). -/
def layer9 (u : CodeUnit) : CheckResult :=
  match u.parse with
  | .ok pu => ⟨9, "Imports", true, "import count: " ++ toString pu.imports.length, []⟩
  | .error _ => noParsedUnit 9 "Imports"

/-- Modelled from the spec: L10 — always passes, reports the count of imports
matching the standard-library set (§4.2 Tier C). -/
def layer10 (u : CodeUnit) : CheckResult :=
  match u.parse with
  | .ok pu =>
    let n := (pu.imports.filter (fun i => STDLIB_NAMES.contains i.moduleName)).length
    ⟨10, "Stdlib imports", true, "stdlib import count: " ++ toString n, []⟩
  | .error _ => noParsedUnit 10 "Stdlib imports"

/-- Modelled from the spec: L11 — always passes, reports the count of imports
matching the reporting-only third-party set (§4.2 Tier C). -/
def layer11 (u : CodeUnit) : CheckResult :=
  match u.parse with
  | .ok pu =>
    let n := (pu.imports.filter (fun i => THIRD_PARTY_NAMES.contains i.moduleName)).length
    ⟨11, "Third-party imports", true, "third-party import count: " ++ toString n, []⟩
  | .error _ => noParsedUnit 11 "Third-party imports"

/-- Modelled from the spec: L12 — pass iff zero relative imports exist,
reporting each relative import with its dotted depth (§4.2 Tier C). -/
def layer12 (u : CodeUnit) : CheckResult :=
  match u.parse with
  | .ok pu =>
    let rel := pu.imports.filter (fun i => 0 < i.relativeDepth)
    ⟨12, "Relative imports", rel.isEmpty,
      "relative import count: " ++ toString rel.length,
      rel.map (fun i => i.moduleName ++ " (depth " ++ toString i.relativeDepth ++ ")")⟩
  | .error _ => noParsedUnit 12 "Relative imports"

/-- Modelled from the spec: the authorization gate, distinct from L9–L12 —
fail with `UndeclaredDependency` listing `imported \ allowed` when that set is
non-empty, else pass (§4.2 Tier C, §7). -/
def authGate (imported allowed : List String) : CheckResult :=
  let undeclared := imported.filter (fun m => !(allowed.contains m))
  if undeclared.isEmpty then
    ⟨18, "Dependency authorization", true, "all dependencies declared", []⟩
  else
    ⟨18, "Dependency authorization", false, "Undeclared dependencies", undeclared⟩

/-- A function counts as annotated for L13 when it has a return annotation or
any annotated parameter (§4.2 Tier D). -/
def typeAnnotated (fn : FunctionDef) : Bool :=
  fn.returnAnnotated || fn.params.any Param.annotated

/-- Modelled from the spec: L13 — type-annotation coverage over every function
of the unit, pass iff coverage ≥ 0.70, vacuously pass for zero functions
(§4.2 Tier D).  With `c` covered of `n`, `c / n ≥ 0.7 ↔ 10 * c ≥ 7 * n`. -/
def layer13 (u : CodeUnit) : CheckResult :=
  match u.parse with
  | .ok pu =>
    let n := pu.functions.length
    let c := (pu.functions.filter typeAnnotated).length
    ⟨13, "Type consistency", n = 0 || 7 * n ≤ 10 * c,
      "annotated functions: " ++ toString c ++ " of " ++ toString n, []⟩
  | .error _ => noParsedUnit 13 "Type consistency"

mutual

/-- Counts of (conditionals, for loops, while loops) in one construct node
(§4.2 L14). -/
def countsNode : CNode → Nat × Nat × Nat
  | .forLoop cs => let r := countsList cs; (r.1, r.2.1 + 1, r.2.2)
  | .whileLoop cs => let r := countsList cs; (r.1, r.2.1, r.2.2 + 1)
  | .conditional cs => let r := countsList cs; (r.1 + 1, r.2.1, r.2.2)
  | .plain cs => countsList cs

/-- Counts of (conditionals, for loops, while loops) in a construct list. -/
def countsList : List CNode → Nat × Nat × Nat
  | [] => (0, 0, 0)
  | c :: rest =>
    let a := countsNode c
    let b := countsList rest
    (a.1 + b.1, a.2.1 + b.2.1, a.2.2 + b.2.2)

end

/-- Modelled from the spec: L14 — always passes, records the conditional and
loop counts as a signal (§4.2 Tier D). -/
def layer14 (u : CodeUnit) : CheckResult :=
  match u.parse with
  | .ok pu =>
    let r := countsList pu.constructs
    ⟨14, "Logic completeness", true,
      "conditionals: " ++ toString r.1 ++ ", for loops: " ++ toString r.2.1
        ++ ", while loops: " ++ toString r.2.2, []⟩
  | .error _ => noParsedUnit 14 "Logic completeness"

/-- An exception handler body is an anti-pattern when it is empty or consists
solely of no-op statements (§4.2 L15). -/
def isNoOpHandler (body : List HStmt) : Bool :=
  body.isEmpty || body.all (fun s => s == .noOp)

/-- Modelled from the spec: L15 on a parsed unit — fail ("no handling block")
when zero try/exception constructs exist; else flag each no-op handler as an
anti-pattern, fail with their count and list when any exists, else pass with
the count of valid handlers (§4.2 Tier D). -/
def layer15Core (pu : ParsedUnit) : CheckResult :=
  if pu.tryBlocks.isEmpty then
    ⟨15, "Error handling", false, "no handling block", []⟩
  else
    let handlers := pu.tryBlocks.flatMap TryBlock.handlers
    let antis := handlers.filter isNoOpHandler
    if antis.isEmpty then
      ⟨15, "Error handling", true, "valid handlers: " ++ toString handlers.length, []⟩
    else
      ⟨15, "Error handling", false, "anti-patterns: " ++ toString antis.length,
        antis.map (fun _ => "handler body is a no-op")⟩

/-- Modelled from the spec: L15 (§4.2 Tier D). -/
def layer15 (u : CodeUnit) : CheckResult :=
  match u.parse with
  | .ok pu => layer15Core pu
  | .error _ => noParsedUnit 15 "Error handling"

/-- Modelled from the spec: the fixed dangerous-operation set of L16 — dynamic
evaluation, dynamic execution, dynamic compilation, dynamic import, unsafe
deserialization, process/shell invocation (§4.2 Tier D). -/
def DANGEROUS_CALLS : List String :=
  ["eval", "exec", "compile", "__import__", "pickle.loads",
   "os.system", "subprocess.run", "subprocess.call", "subprocess.Popen"]

/-- One hardcoded-secret pattern of L16: category, case-insensitive keyword
and minimum literal-value length (§4.2 Tier D: password ≥ 8 chars, others
≥ 10 chars). -/
structure SecretKind where
  category : String
  keyword : String
  minLen : Nat
deriving DecidableEq

/-- Modelled from the spec: the hardcoded-secret pattern table of L16 — API
key / password / secret / token / cloud-credential-prefix, with the password
threshold 8 and 10 for the others (§4.2 Tier D). -/
def secretKinds : List SecretKind :=
  [⟨"API Key", "api_key", 10⟩,
   ⟨"Password", "password", 8⟩,
   ⟨"Secret", "secret", 10⟩,
   ⟨"Token", "token", 10⟩,
   ⟨"Cloud Credential", "akia", 10⟩]

/-- Case-insensitive match of a lowercase keyword against the head of a
character list, returning the rest on success. -/
def matchCI : List Char → List Char → Option (List Char)
  | [], rest => some rest
  | _ :: _, [] => none
  | k :: ks, c :: cs => if c.toLower == k then matchCI ks cs else none

/-- Skip spaces. -/
def skipSpaces : List Char → List Char
  | ' ' :: cs => skipSpaces cs
  | cs => cs

/-- After a matched keyword: expect `= "<value>"` (spaces allowed around `=`)
and return the length of the quoted literal value. -/
def matchAssignedValue (cs : List Char) : Option Nat :=
  match skipSpaces cs with
  | '=' :: cs =>
    match skipSpaces cs with
    | '"' :: cs => some (cs.takeWhile (fun c => c != '"')).length
    | _ => none
  | _ => none

/-- Scan a line for the first occurrence of a keyword followed by an assigned
quoted literal; return the literal's length. -/
def scanKeyword (kw : List Char) : List Char → Option Nat
  | [] => none
  | c :: cs =>
    match matchCI kw (c :: cs) with
    | some rest => matchAssignedValue rest
    | none => scanKeyword kw cs

/-- Whether one secret pattern fires on a line: the keyword occurs with an
assigned quoted literal at least `minLen` characters long. -/
def secretHit (k : SecretKind) (line : String) : Bool :=
  match scanKeyword k.keyword.toList line.toList with
  | some n => k.minLen ≤ n
  | none => false

/-- The categories of the secret patterns firing on one line, in table
order. -/
def lineSecretCategories (line : String) : List String :=
  (secretKinds.filter (fun k => secretHit k line)).map SecretKind.category

/-- Modelled from the spec: L16 — fail on any dangerous-operation call or any
hardcoded-secret line match, pass iff zero findings of either kind (§4.2
Tier D). -/
def layer16 (u : CodeUnit) : CheckResult :=
  match u.parse with
  | .ok pu =>
    let dangerous := pu.calls.filter (fun c => DANGEROUS_CALLS.contains c)
    let secrets := u.lines.flatMap lineSecretCategories
    ⟨16, "Security", dangerous.isEmpty && secrets.isEmpty,
      "dangerous calls: " ++ toString dangerous.length
        ++ ", secret findings: " ++ toString secrets.length,
      dangerous ++ secrets⟩
  | .error _ => noParsedUnit 16 "Security"

mutual

/-- Maximum structural nesting depth of loop constructs below (and including)
one node: a loop contributes one level; conditionals and other intervening
non-loop nodes do not break the nesting (§4.2 L17). -/
def loopDepthNode : CNode → Nat
  | .forLoop cs => loopDepthList cs + 1
  | .whileLoop cs => loopDepthList cs + 1
  | .conditional cs => loopDepthList cs
  | .plain cs => loopDepthList cs

/-- Maximum loop-nesting depth over a construct list. -/
def loopDepthList : List CNode → Nat
  | [] => 0
  | c :: rest => max (loopDepthNode c) (loopDepthList rest)

end

/-- Modelled from the spec: L17 on a parsed unit — compute the maximum
structural loop-nesting depth by recursive descent; fail iff that depth is at
least 3, reporting the depth (§4.2 Tier D). -/
def layer17Core (pu : ParsedUnit) : CheckResult :=
  let d := loopDepthList pu.constructs
  ⟨17, "Performance", decide (d < 3), "max loop nesting depth: " ++ toString d, []⟩

/-- Modelled from the spec: L17 (§4.2 Tier D). -/
def layer17 (u : CodeUnit) : CheckResult :=
  match u.parse with
  | .ok pu => layer17Core pu
  | .error _ => noParsedUnit 17 "Performance"

/-- The 17 core layers, run unconditionally and in fixed order (§2, §4.2,
§4.4). -/
def coreLayers (u : CodeUnit) : List CheckResult :=
  [layer1 u, layer2 u, layer3 u, layer4 u, layer5 u, layer6 u, layer7 u,
   layer8 u, layer9 u, layer10 u, layer11 u, layer12 u, layer13 u, layer14 u,
   layer15 u, layer16 u, layer17 u]

/-- The top-level module names a unit imports, for the authorization gate
(§4.2 Tier C); the empty set when the unit does not parse. -/
def importedNames (u : CodeUnit) : List String :=
  match u.parse with
  | .ok pu => pu.imports.map ImportStm.moduleName
  | .error _ => []

/-- Modelled from the spec: the Verdict Aggregator's report shaping —
`passed = AND(all results)`, `quality_score = round(100 × passed / total)`,
and up to 5 failing layers' messages as suggestions, in run order (§3,
§4.4). -/
def mkReport (results : List CheckResult) : ValidationReport :=
  let total := results.length
  let passedCount := (results.filter (fun r => r.passed)).length
  { layers := results,
    passed := results.all (fun r => r.passed),
    quality_score := pyRound (100 * passedCount) total,
    total_layers := total,
    passed_layers := passedCount,
    suggestions :=
      ((results.filter (fun r => !r.passed)).take 5).map
        (fun r => "L" ++ toString r.layer ++ " " ++ r.layerName ++ ": " ++ r.message) }

/-- Modelled from the spec: the validation pipeline — run every tier
unconditionally, run the authorization gate when the unit is bound to a
spec-tree node, aggregate; `NodeNotFound` is surfaced as a configuration
error, not folded into the quality score (§2, §4.4, §7). -/
def validate (tree : Option SpecNode) (u : CodeUnit) : Except String ValidationReport :=
  match u.nodeId, tree with
  | some nid, some root =>
    match effectiveAllowList root nid with
    | none => .error ("NodeNotFound: " ++ nid)
    | some allowed => .ok (mkReport (coreLayers u ++ [authGate (importedNames u) allowed]))
  | _, _ => .ok (mkReport (coreLayers u))

/-!
Concrete instances used to exercise the definitions, drawn from the spec's
testable properties (§8) and from the repository's test inputs.
-/

/-- A sampler instance: take the first `n` elements of the population. -/
def takeSampler : Sampler where
  sample := fun l n => l.take n
  length_sample := by
    intro l n h
    simpa [List.length_take] using Nat.min_eq_left h
  mem_sample := by
    intro l n x hx
    exact List.mem_of_mem_take hx

/-- A parsed unit with no content at all. -/
def emptyParsedUnit : ParsedUnit := ⟨[], [], [], [], [], []⟩

/-- A trivial code unit that parses to the empty unit. -/
def sampleUnit : CodeUnit := ⟨[], .ok emptyParsedUnit, none, none⟩

/-- The non-parseable unit of `test_layer_1_syntax` (missing colon), with the
parser's position and message as the adapter's typed failure. -/
def badParseUnit : CodeUnit :=
  ⟨["def calculate_tax(amount, rate)", "    return amount * rate # Missing colon"],
   .error ⟨1, 31, "expected ':'"⟩, none, none⟩

/-- The parsed form of `try: 1/0 except: pass` — one try construct whose
single handler body is one no-op statement. -/
def tryExceptPassUnit : ParsedUnit := ⟨[], [], [], [], [⟨[[.noOp]]⟩], []⟩

/-- Three sequentially nested `for` loops (§8). -/
def threeNestedFors : List CNode := [.forLoop [.forLoop [.forLoop []]]]

/-- Two nested loops plus one sibling loop (§8). -/
def twoNestedPlusSibling : List CNode := [.forLoop [.forLoop []], .forLoop []]

/-- A parsed unit carrying only the given control constructs. -/
def puWithConstructs (cs : List CNode) : ParsedUnit := ⟨[], [], [], cs, [], []⟩

/-- The line `password = "<value>"` for a given literal value. -/
def pwLine (v : String) : String := "password = \"" ++ v ++ "\""

/-- A unit whose source is the single line `password = "abcdefgh12"` (§8). -/
def pwUnit : CodeUnit := ⟨["password = \"abcdefgh12\""], .ok emptyParsedUnit, none, none⟩

/-- A unit whose source is the single line `password = "short"` (§8). -/
def shortPwUnit : CodeUnit := ⟨["password = \"short\""], .ok emptyParsedUnit, none, none⟩

/-- The spec tree of `verify_4_layer_parasite.py`: root → MODULE `tax_module`
declaring `["math"]` → LEAF `test_node_parasite`. -/
def sampleTree : SpecNode :=
  .mk "root" "root" .MODULE []
    [.mk "tax_module" "Tax Module" .MODULE ["math"]
      [.mk "test_node_parasite" "calculate_tax" .LEAF [] []]]

/-- The root-to-leaf path of `test_node_parasite` in `sampleTree`. -/
def samplePath : List SpecNode :=
  [.mk "root" "root" .MODULE []
     [.mk "tax_module" "Tax Module" .MODULE ["math"]
       [.mk "test_node_parasite" "calculate_tax" .LEAF [] []]],
   .mk "tax_module" "Tax Module" .MODULE ["math"]
     [.mk "test_node_parasite" "calculate_tax" .LEAF [] []],
   .mk "test_node_parasite" "calculate_tax" .LEAF [] []]

/-!
Theorems.
-/

/-- C10: `get_questions_by_category` is total — for every category string not
present in the question library it returns the empty list rather than raising,
and for every present category it returns that category's question list
unchanged. -/
theorem get_questions_by_category_total (category : String) :
    (category ∉ QUESTION_LIBRARY.map Prod.fst → get_questions_by_category category = [])
    ∧ (∀ qs, (category, qs) ∈ QUESTION_LIBRARY → get_questions_by_category category = qs) := by
  constructor
  · intro h
    have hfind : QUESTION_LIBRARY.find? (fun p => p.1 == category) = none := by
      rw [List.find?_eq_none]
      intro p hp hpc
      exact h (List.mem_map.mpr ⟨p, hp, by simpa using hpc⟩)
    unfold get_questions_by_category
    rw [hfind]
  · intro qs hmem
    simp only [QUESTION_LIBRARY, List.mem_cons, List.not_mem_nil, or_false] at hmem
    rcases hmem with h | h | h | h | h | h | h | h | h | h <;>
      (injection h with h1 h2; subst h1; subst h2; rfl)

/-- Witness for C10 at the absent category `"nosuch"` and the present category
`"payment"`. -/
theorem get_questions_by_category_total_witness :
    get_questions_by_category "nosuch" = []
    ∧ get_questions_by_category "payment" = paymentQuestions :=
  ⟨(get_questions_by_category_total "nosuch").1 (by decide),
   (get_questions_by_category_total "payment").2 paymentQuestions
     (by unfold QUESTION_LIBRARY; exact List.mem_cons_self _ _)⟩

/-- C9: `evaluate_question_quality` returns a score between 0 and 100
inclusive — clamped below at 0, while the additive field checks contribute at
most 100. -/
theorem evaluate_question_quality_score_bounded (question : QuestionDict) :
    0 ≤ (evaluate_question_quality question).score
    ∧ (evaluate_question_quality question).score ≤ 100 := by
  have hreq : requiredFieldScore question ≤ 100 := by
    unfold requiredFieldScore
    cases question.text <;> cases question.category <;>
      cases question.options <;> cases question.risk_analysis <;> simp
  unfold evaluate_question_quality
  constructor
  · exact le_max_left 0 _
  · apply max_le (by norm_num)
    cases question.risk_analysis <;> dsimp only <;> split <;> try split
    all_goals omega

/-- C8: `get_questions_for_module` returns at most 5 questions, and when no
keyword category matches it falls back to a non-empty random selection rather
than returning an empty list. -/
theorem get_questions_for_module_bounded (s : Sampler)
    (module_name module_description : String) :
    (get_questions_for_module s module_name module_description).length ≤ 5
    ∧ (no_category_match module_name module_description = true →
        get_questions_for_module s module_name module_description ≠ []) := by
  constructor
  · unfold get_questions_for_module
    dsimp only
    simp only [List.length_take]
    omega
  · intro h
    unfold no_category_match at h
    simp only [keywordTable, List.all_cons, List.all_nil, Bool.and_eq_true,
      Bool.not_eq_true', and_true] at h
    obtain ⟨h1, h2, h3, h4, h5⟩ := h
    have hlen : (get_random_questions s 5).length = 5 := by
      unfold get_random_questions
      dsimp only
      have h20 : (QUESTION_LIBRARY.flatMap (fun p => p.2)).length = 20 := by rfl
      rw [s.length_sample _ _ (by rw [h20]; decide), h20]
      decide
    have hsel : (keywordTable.flatMap fun kc =>
        if kwAny kc.1 (strToLower (module_name ++ " " ++ module_description)) then
          get_questions_by_category kc.2
        else []) = [] := by
      simp [keywordTable, h1, h2, h3, h4, h5]
    unfold get_questions_for_module
    dsimp only
    rw [hsel]
    have hd : (if ([] : List QuestionDict).isEmpty then get_random_questions s 5
        else []) = get_random_questions s 5 := rfl
    rw [hd]
    intro hnil
    have htake : (List.take 5 (get_random_questions s 5)).length = 5 := by
      rw [List.length_take, hlen]
      decide
    rw [hnil] at htake
    simp at htake

/-- Witness for C8: the take-first sampler and a module text matching no
keyword category. -/
theorem get_questions_for_module_bounded_witness :
    no_category_match "核心引擎" "計算排程" = true
    ∧ get_questions_for_module takeSampler "核心引擎" "計算排程" ≠ [] :=
  ⟨by decide,
   (get_questions_for_module_bounded takeSampler "核心引擎" "計算排程").2 (by decide)⟩

/-- C4: the validation pipeline is deterministic — two invocations with
identical inputs (same source unit, expected signature and spec-tree binding)
produce identical reports. -/
theorem validate_deterministic (t₁ t₂ : Option SpecNode) (u₁ u₂ : CodeUnit)
    (ht : t₁ = t₂) (hu : u₁ = u₂) : validate t₁ u₁ = validate t₂ u₂ := by
  rw [ht, hu]

/-- Witness for C4 at a concrete unit. -/
theorem validate_deterministic_witness :
    validate none sampleUnit = validate none sampleUnit :=
  validate_deterministic none none sampleUnit sampleUnit rfl rfl

/-- C2: every produced ValidationReport has `passed` equal to the conjunction
of its layers' pass flags, `passed_layers` the count of passing CheckResults,
`total_layers` the number of layers that ran, and
`quality_score = round(100 × passed_layers / total_layers)`. -/
theorem validate_report_aggregates (tree : Option SpecNode) (u : CodeUnit)
    (r : ValidationReport) (hok : validate tree u = Except.ok r) :
    (r.passed = true ↔ ∀ cr ∈ r.layers, cr.passed = true)
    ∧ r.total_layers = r.layers.length
    ∧ r.passed_layers = (r.layers.filter (fun cr => cr.passed)).length
    ∧ r.quality_score = pyRound (100 * r.passed_layers) r.total_layers := by
  have base : ∀ results : List CheckResult,
      ((mkReport results).passed = true ↔ ∀ cr ∈ (mkReport results).layers, cr.passed = true)
      ∧ (mkReport results).total_layers = (mkReport results).layers.length
      ∧ (mkReport results).passed_layers
          = ((mkReport results).layers.filter (fun cr => cr.passed)).length
      ∧ (mkReport results).quality_score
          = pyRound (100 * (mkReport results).passed_layers) (mkReport results).total_layers :=
    fun results => ⟨by simp [mkReport, List.all_eq_true], rfl, rfl, rfl⟩
  unfold validate at hok
  rcases hn : u.nodeId with _ | nid <;> rcases tree with _ | root <;> rw [hn] at hok
  · injection hok with h; subst h; exact base _
  · injection hok with h; subst h; exact base _
  · injection hok with h; subst h; exact base _
  · rcases heff : effectiveAllowList root nid with _ | allowed <;>
      simp only [heff] at hok
    · exact absurd hok (by simp)
    · injection hok with h; subst h; exact base _

/-- Witness for C2 on a concrete run. -/
theorem validate_report_aggregates_witness :
    (mkReport (coreLayers sampleUnit)).quality_score
      = pyRound (100 * (mkReport (coreLayers sampleUnit)).passed_layers)
          (mkReport (coreLayers sampleUnit)).total_layers :=
  (validate_report_aggregates none sampleUnit (mkReport (coreLayers sampleUnit)) rfl).2.2.2

/-- C5: L17 computes the maximum structural loop-nesting depth by recursive
descent — each loop level adds one, intervening non-loop nodes do not break
nesting — and fails iff that depth is at least 3; three nested `for` loops
give depth 3 and fail, two nested loops plus a sibling loop give depth 2 and
pass. -/
theorem layer17_nesting_depth :
    (∀ pu : ParsedUnit,
        ((layer17Core pu).passed = false ↔ 3 ≤ loopDepthList pu.constructs))
    ∧ (∀ cs : List CNode,
        loopDepthNode (.forLoop cs) = loopDepthList cs + 1
        ∧ loopDepthNode (.whileLoop cs) = loopDepthList cs + 1
        ∧ loopDepthNode (.conditional cs) = loopDepthList cs
        ∧ loopDepthNode (.plain cs) = loopDepthList cs)
    ∧ loopDepthList threeNestedFors = 3
    ∧ (layer17Core (puWithConstructs threeNestedFors)).passed = false
    ∧ loopDepthList twoNestedPlusSibling = 2
    ∧ (layer17Core (puWithConstructs twoNestedPlusSibling)).passed = true := by
  refine ⟨?_, ?_, by decide, by decide, by decide, by decide⟩
  · intro pu
    simp [layer17Core]
  · intro cs
    exact ⟨rfl, rfl, rfl, rfl⟩

/-- C6: L15 fails with "no handling block" on units with zero try/exception
constructs; otherwise it passes iff no exception handler body is empty or
solely a no-op; `try: 1/0 except: pass` yields exactly one reported
anti-pattern. -/
theorem layer15_antipatterns :
    (∀ pu : ParsedUnit, pu.tryBlocks = [] →
        (layer15Core pu).passed = false ∧ (layer15Core pu).message = "no handling block")
    ∧ (∀ pu : ParsedUnit, pu.tryBlocks ≠ [] →
        ((layer15Core pu).passed = true
          ↔ (pu.tryBlocks.flatMap TryBlock.handlers).filter isNoOpHandler = []))
    ∧ (layer15Core tryExceptPassUnit).passed = false
    ∧ (layer15Core tryExceptPassUnit).detail = ["handler body is a no-op"] := by
  refine ⟨?_, ?_, by decide, by simp [layer15Core, tryExceptPassUnit, isNoOpHandler]⟩
  · intro pu h
    unfold layer15Core
    rw [h]
    exact ⟨rfl, rfl⟩
  · intro pu h
    unfold layer15Core
    rw [if_neg (by simpa [List.isEmpty_iff] using h)]
    dsimp only
    constructor
    · intro hp
      by_contra hne
      rw [if_neg (by simpa [List.isEmpty_iff] using hne)] at hp
      simp at hp
    · intro hnil
      rw [if_pos (by simpa [List.isEmpty_iff] using hnil)]

/-- Witness for C6 at the empty unit and the `try/except: pass` unit. -/
theorem layer15_antipatterns_witness :
    (layer15Core emptyParsedUnit).passed = false
    ∧ ((layer15Core tryExceptPassUnit).passed = true
        ↔ (tryExceptPassUnit.tryBlocks.flatMap TryBlock.handlers).filter isNoOpHandler = []) :=
  ⟨(layer15_antipatterns.1 emptyParsedUnit rfl).1,
   layer15_antipatterns.2.1 tryExceptPassUnit (by decide)⟩

/-- The authorization gate's CheckResult always carries layer number 18,
whether it passes or fails. -/
theorem authGate_layer (imported allowed : List String) :
    (authGate imported allowed).layer = 18 := by
  unfold authGate
  dsimp only
  split <;> rfl

/-- C3: on every non-parseable input the pipeline fails L1 carrying the
parser's line/column/message, still returns a CheckResult for every other
configured layer (layers 1–17 in order, plus the authorization gate when the
unit is bound), and returns a report rather than propagating an exception. -/
theorem parse_failure_isolated (tree : Option SpecNode) (u : CodeUnit)
    (e : SyntaxErrorKind) (r : ValidationReport) (he : u.parse = Except.error e)
    (hok : validate tree u = Except.ok r) :
    r.layers.map (fun cr => cr.layer)
      = [1, 2, 3, 4, 5, 6, 7, 8, 9, 10, 11, 12, 13, 14, 15, 16, 17]
        ++ (match u.nodeId, tree with | some _, some _ => [18] | _, _ => [])
    ∧ r.layers.head? = some ⟨1, "Syntax", false, syntaxMessage e, []⟩ := by
  have hcore : (coreLayers u).map (fun cr => cr.layer)
      = [1, 2, 3, 4, 5, 6, 7, 8, 9, 10, 11, 12, 13, 14, 15, 16, 17] := by
    simp [coreLayers, layer1, layer2, layer3, layer4, layer5, layer6, layer7,
      layer8, layer9, layer10, layer11, layer12, layer13, layer14, layer15,
      layer16, layer17, noParsedUnit, he]
  have hhead : (coreLayers u).head? = some ⟨1, "Syntax", false, syntaxMessage e, []⟩ := by
    simp [coreLayers, layer1, he]
  unfold validate at hok
  rcases hn : u.nodeId with _ | nid <;> rcases tree with _ | root <;>
    rw [hn] at hok <;> simp only [hn]
  · injection hok with h; subst h; exact ⟨by simpa using hcore, by simpa using hhead⟩
  · injection hok with h; subst h; exact ⟨by simpa using hcore, by simpa using hhead⟩
  · injection hok with h; subst h; exact ⟨by simpa using hcore, by simpa using hhead⟩
  · rcases heff : effectiveAllowList root nid with _ | allowed <;>
      simp only [heff] at hok
    · exact absurd hok (by simp)
    · injection hok with h; subst h
      constructor
      · show ((coreLayers u ++ [authGate (importedNames u) allowed]).map fun cr => cr.layer) = _
        rw [List.map_append, hcore]
        simp [authGate_layer]
      · show (coreLayers u ++ [authGate (importedNames u) allowed]).head? = _
        rw [List.head?_append_of_ne_nil _ (by simp [coreLayers])]
        exact hhead

/-- Witness for C3 at the non-parseable unit of `test_layer_1_syntax`. -/
theorem parse_failure_isolated_witness :
    (mkReport (coreLayers badParseUnit)).layers.head?
      = some ⟨1, "Syntax", false, syntaxMessage ⟨1, 31, "expected ':'"⟩, []⟩ :=
  (parse_failure_isolated none badParseUnit ⟨1, 31, "expected ':'"⟩
    (mkReport (coreLayers badParseUnit)) rfl rfl).2

/-- Scanning a quote-free value: `takeWhile` up to the closing quote returns
the whole value. -/
theorem takeWhile_append_quote (l : List Char) (h : ∀ c ∈ l, c ≠ '"') :
    (l ++ ['"']).takeWhile (fun c => c != '"') = l := by
  induction l with
  | nil => rfl
  | cons a l ih =>
    simp only [List.cons_append, List.takeWhile_cons]
    have ha : (a != '"') = true := by
      simpa [bne] using h a (List.mem_cons_self a l)
    rw [ha]
    simp only [if_true]
    rw [ih (fun c hc => h c (List.mem_cons_of_mem _ hc))]

/-- The password pattern scanned over `password = "<value>"` finds the
assigned quoted literal. -/
theorem scanKeyword_pwLine (v : String) :
    scanKeyword ("password".toList) (pwLine v).toList
      = some ((v.data ++ ['"']).takeWhile (fun c => c != '"')).length := rfl

/-- The password pattern fires on `password = "<value>"` exactly when the
quote-free value has at least 8 characters. -/
theorem secretHit_pwLine (v : String) (h : ∀ c ∈ v.data, c ≠ '"') :
    secretHit ⟨"Password", "password", 8⟩ (pwLine v) = decide (8 ≤ v.length) := by
  unfold secretHit
  rw [show (⟨"Password", "password", 8⟩ : SecretKind).keyword.toList
        = "password".toList from rfl]
  rw [scanKeyword_pwLine, takeWhile_append_quote v.data h]
  rfl

/-- C7: L16's hardcoded-secret detection applies the ≥ 8-character length
threshold to the password pattern's literal value and ≥ 10 to the other
categories: `password = "abcdefgh12"` yields a Password finding and an L16
failure, `password = "short"` yields none. -/
theorem layer16_password_threshold :
    (∀ v : String, (∀ c ∈ v.data, c ≠ '"') →
        ("Password" ∈ lineSecretCategories (pwLine v) ↔ 8 ≤ v.length))
    ∧ lineSecretCategories (pwLine "abcdefgh12") = ["Password"]
    ∧ lineSecretCategories (pwLine "short") = []
    ∧ (secretKinds.map fun k => (k.category, k.minLen))
        = [("API Key", 10), ("Password", 8), ("Secret", 10), ("Token", 10),
           ("Cloud Credential", 10)]
    ∧ (layer16 pwUnit).passed = false
    ∧ "Password" ∈ (layer16 pwUnit).detail
    ∧ (layer16 shortPwUnit).passed = true := by
  refine ⟨?_, by decide, by decide, by decide, by decide, by decide, by decide⟩
  intro v hv
  unfold lineSecretCategories
  rw [List.mem_map]
  constructor
  · rintro ⟨k, hk, hcat⟩
    rw [List.mem_filter] at hk
    obtain ⟨hmem, hhit⟩ := hk
    simp only [secretKinds, List.mem_cons, List.not_mem_nil, or_false] at hmem
    rcases hmem with h | h | h | h | h <;> subst h <;>
      first
        | exact absurd hcat (by decide)
        | (rw [secretHit_pwLine v hv] at hhit; exact of_decide_eq_true hhit)
  · intro hlen
    refine ⟨⟨"Password", "password", 8⟩, ?_, rfl⟩
    rw [List.mem_filter]
    refine ⟨by simp [secretKinds], ?_⟩
    rw [secretHit_pwLine v hv]
    exact decide_eq_true hlen

/-- Witness for C7 at the boundary value `"abcdefgh"` (8 characters). -/
theorem layer16_password_threshold_witness :
    "Password" ∈ lineSecretCategories (pwLine "abcdefgh") :=
  (layer16_password_threshold.1 "abcdefgh" (by decide)).mpr (by decide)

/-- A found path is never empty: it always ends at the target node. -/
theorem findPath_ne_nil (target : String) (n : SpecNode) (p : List SpecNode)
    (hp : findPath target n = some p) : p ≠ [] := by
  cases n with
  | mk i nm k deps cs =>
    unfold findPath at hp
    by_cases h : i = target
    · rw [if_pos h] at hp
      injection hp with h'
      subst h'
      simp
    · rw [if_neg h] at hp
      rcases hq : findPathList target cs with _ | q <;> rw [hq] at hp
      · exact absurd hp (by simp)
      · injection hp with h'
        subst h'
        simp

/-- A path found under any sibling list is never empty. -/
theorem findPathList_ne_nil (target : String) (l : List SpecNode) (p : List SpecNode)
    (hp : findPathList target l = some p) : p ≠ [] := by
  induction l with
  | nil => exact absurd hp (by simp [findPathList])
  | cons c rest ih =>
    unfold findPathList at hp
    rcases hc : findPath target c with _ | q <;> rw [hc] at hp
    · exact ih hp
    · injection hp with h'
      subst h'
      exact findPath_ne_nil target c _ hc

mutual

/-- The resolver's accumulating walk computes, for a found target, the
accumulator extended by the union of the grants of every node strictly above
the target on the root-to-target path. -/
theorem allowWalk_eq (target : String) (acc : List String) :
    ∀ n : SpecNode,
      allowWalk target acc n
        = (findPath target n).map (fun p => acc ++ moduleGrants p.dropLast)
  | .mk i nm k deps cs => by
    unfold allowWalk findPath
    by_cases h : i = target
    · rw [if_pos h, if_pos h]
      simp [moduleGrants]
    · rw [if_neg h, if_neg h]
      rw [allowWalkList_eq target (acc ++ SpecNode.grant (.mk i nm k deps cs)) cs]
      rcases hq : findPathList target cs with _ | q
      · simp
      · have hqne := findPathList_ne_nil target cs q hq
        simp only [Option.map_some', List.dropLast_cons_of_ne_nil hqne, moduleGrants,
          List.flatMap_cons, List.append_assoc]

/-- The list version of `allowWalk_eq`. -/
theorem allowWalkList_eq (target : String) (acc : List String) :
    ∀ l : List SpecNode,
      allowWalkList target acc l
        = (findPathList target l).map (fun p => acc ++ moduleGrants p.dropLast)
  | [] => by simp [allowWalkList, findPathList]
  | c :: rest => by
    unfold allowWalkList findPathList
    rw [allowWalk_eq target acc c]
    rcases hc : findPath target c with _ | q
    · simpa using allowWalkList_eq target acc rest
    · simp

end

/-- C1: for every spec tree and LEAF identifier present in it, the resolver's
effective allow-list equals the union of the dependency sets granted by the
MODULE ancestors on the root-to-leaf path, and the authorization gate fails
exactly when the imported names outside that allow-list are non-empty,
listing exactly that set. -/
theorem effective_allow_list_and_gate (root : SpecNode) (nid : String)
    (path : List SpecNode) (hpath : findPath nid root = some path)
    (_hleaf : path.getLast?.map SpecNode.kind = some .LEAF) :
    effectiveAllowList root nid = some (moduleGrants path.dropLast)
    ∧ ∀ imported : List String,
        ((authGate imported (moduleGrants path.dropLast)).passed = false
          ↔ imported.filter (fun m => !((moduleGrants path.dropLast).contains m)) ≠ [])
        ∧ (authGate imported (moduleGrants path.dropLast)).detail
            = imported.filter (fun m => !((moduleGrants path.dropLast).contains m)) := by
  constructor
  · unfold effectiveAllowList
    rw [allowWalk_eq nid [] root, hpath]
    simp
  · intro imported
    unfold authGate
    dsimp only
    cases hemp : (imported.filter fun m => !((moduleGrants path.dropLast).contains m)).isEmpty
    · rw [if_neg (by simp [hemp])]
      refine ⟨?_, rfl⟩
      simp only [eq_self_iff_true, true_iff]
      intro hcontra
      rw [hcontra] at hemp
      simp at hemp
    · rw [if_pos (by simp [hemp])]
      have hnil : (imported.filter fun m => !((moduleGrants path.dropLast).contains m)) = [] :=
        List.isEmpty_iff.mp hemp
      refine ⟨?_, hnil.symm⟩
      rw [hnil]
      simp

/-- Witness for C1 on the tree of `verify_4_layer_parasite.py`. -/
theorem effective_allow_list_and_gate_witness :
    effectiveAllowList sampleTree "test_node_parasite" = some ["math"]
    ∧ (authGate ["requests", "subprocess"] (moduleGrants samplePath.dropLast)).passed
        = false := by
  have h := effective_allow_list_and_gate sampleTree "test_node_parasite" samplePath rfl rfl
  exact ⟨by rw [h.1]; decide, ((h.2 ["requests", "subprocess"]).1).mpr (by decide)⟩

end BlueMouse
